import Mathlib

/-!
Shallow embedding of the libewf write engine (`libewf/libewf_write_io_handle.c`)
and proofs relating it to its natural-language specification.

Conventions of the embedding:
* C unsigned integers are modelled as `ℕ`, C signed integers as `ℤ`.
  Where a C conversion or wrap-around is reachable on the inputs a theorem
  quantifies over, the wrap is written explicitly (`% 2 ^ 32`, `% 2 ^ 16`,
  two's-complement reinterpretation); elsewhere theorems carry explicit range
  side conditions mirroring the machine-integer ranges.
* Signed C division/remainder truncates toward zero, so it is rendered with
  `Int.tdiv` / `Int.tmod`.
* Buffers are `List ℕ` of byte values; pointer identity between the caller's
  buffers and the engine's chunk-cache buffers is carried as explicit flags,
  matching the pointer-equality tests in the source.
* Fallible functions return `Option`; `none` is the `-1` error return.
* The compression primitive (`libewf_compress`) and the CRC primitive
  (`ewf_crc_calculate`) live outside this translation unit; they are taken as
  function parameters.  `compress data level` returns the deflate stream for
  `data` (depending only on data and level); the C call succeeds when the
  stream fits the destination buffer and otherwise reports the required size,
  which is how zlib behaves.
-/

/-- sizeof(ewf_section_t): a section header occupies 76 bytes on disk. -/
def sizeof_ewf_section : ℕ := 76

/-- sizeof(ewf_crc_t): the EWF CRC is a 32-bit value, 4 bytes. -/
def sizeof_ewf_crc : ℕ := 4

/-- sizeof(ewf_table_offset_t): a table offset entry is a 32-bit value, 4 bytes. -/
def sizeof_ewf_table_offset : ℕ := 4

/-- UINT32_MAX. -/
def UINT32_MAX : ℕ := 4294967295

/-- INT32_MAX. -/
def INT32_MAX : ℕ := 2147483647

/-- INT64_MAX. -/
def INT64_MAX : ℕ := 9223372036854775807

/-- SSIZE_MAX on a 64-bit platform. -/
def SSIZE_MAX : ℕ := 9223372036854775807

/-- Reinterpretation of an unsigned 64-bit value as a signed 64-bit value
(two's complement), as performed by the C casts `(ssize64_t) media_size`. -/
def int64_of_uint64 (n : ℕ) : ℤ :=
  if n % 2 ^ 64 < 2 ^ 63 then ((n % 2 ^ 64 : ℕ) : ℤ)
  else ((n % 2 ^ 64 : ℕ) : ℤ) - 2 ^ 64

/-- The fields of `libewf_media_values_t` that the write io handle reads. -/
structure MediaValues where
  chunk_size : ℕ
  media_size : ℕ
  amount_of_chunks : ℕ
deriving DecidableEq

/-- Translation of `libewf_write_io_handle_calculate_chunks_per_segment`
(libewf_write_io_handle.c:200-355).  `none` is the `-1` error return; the
NULL-pointer guards of the source have no counterpart because the embedding
passes all values directly.  The `% 2 ^ 32` on the EWF-S01 per-chunk cost
renders the `uint32` addition `media_values->chunk_size + 16` of the source;
the two assignments of the `size64_t` budget to the `int64_t` locals
`maximum_chunks_per_segment` (line 253) and `calculated_chunks_per_segment`
(line 276) reinterpret the value in two's complement, rendered with
`int64_of_uint64`.  The compound subtractions and divisions on those locals
are rendered with unbounded integers; claim C3's theorem confines itself by
explicit side conditions (budget within the signed 64-bit range, overhead
subtraction non-negative) to the domain where no further int64 conversion can
change a value, which is also where the `size_t` divisor of the non-S01
divisions behaves as plain division. -/
def libewf_write_io_handle_calculate_chunks_per_segment
    (remaining_segment_file_size : ℕ)
    (maximum_section_amount_of_chunks : ℕ)
    (segment_amount_of_chunks : ℕ)
    (amount_of_chunks : ℕ)
    (media_values : MediaValues)
    (format_is_encase1 : Bool)
    (ewf_format_is_s01 : Bool)
    (unrestrict_offset_amount : Bool) : Option ℕ :=
  if maximum_section_amount_of_chunks = 0 then none
  else
    let per_chunk_cost : ℕ :=
      if ewf_format_is_s01 then (media_values.chunk_size + 16) % 2 ^ 32
      else media_values.chunk_size + sizeof_ewf_crc
    let maximum_chunks_per_segment : ℤ :=
      Int.tdiv (int64_of_uint64 remaining_segment_file_size) (per_chunk_cost : ℤ)
    let required_chunk_sections : ℤ :=
      if unrestrict_offset_amount = false then
        Int.tmod maximum_chunks_per_segment (maximum_section_amount_of_chunks : ℤ)
      else 1
    let calculated0 : ℤ :=
      if ewf_format_is_s01 then
        int64_of_uint64 remaining_segment_file_size
          - required_chunk_sections * (sizeof_ewf_section : ℤ)
          - maximum_chunks_per_segment * (sizeof_ewf_table_offset : ℤ)
      else if format_is_encase1 then
        int64_of_uint64 remaining_segment_file_size
          - required_chunk_sections * ((sizeof_ewf_section : ℤ) + (sizeof_ewf_crc : ℤ))
          - maximum_chunks_per_segment * (sizeof_ewf_table_offset : ℤ)
      else
        int64_of_uint64 remaining_segment_file_size
          - required_chunk_sections * (3 * (sizeof_ewf_section : ℤ) + 2 * (sizeof_ewf_crc : ℤ))
          - 2 * maximum_chunks_per_segment * (sizeof_ewf_table_offset : ℤ)
    let calculated1 : ℤ := Int.tdiv calculated0 (per_chunk_cost : ℤ)
    let calculated2 : ℤ :=
      if media_values.media_size > 0 then
        let remaining_amount_of_chunks : ℤ :=
          (media_values.amount_of_chunks : ℤ) - (amount_of_chunks : ℤ)
        if remaining_amount_of_chunks < calculated1 then remaining_amount_of_chunks
        else calculated1
      else calculated1
    let calculated3 : ℤ :=
      if segment_amount_of_chunks > 0 then calculated2 + (segment_amount_of_chunks : ℤ)
      else calculated2
    let calculated4 : ℤ :=
      if calculated3 > (UINT32_MAX : ℤ) then (UINT32_MAX : ℤ) else calculated3
    some (calculated4 % 2 ^ 32).toNat

/-- The chunks-per-segment estimate exactly as the specification describes it
(spec 4.B step 1-7, restated by claim C3): computed with mathematical integers,
clamped by the remaining media chunks, and saturated at 2^32 - 1. -/
def chunks_per_segment_spec
    (remaining : ℕ) (max_section_chunks : ℕ) (segment_chunks_so_far : ℕ)
    (total_chunks_so_far : ℕ) (media : MediaValues)
    (format_is_encase1 : Bool) (ewf_format_is_s01 : Bool)
    (unrestrict : Bool) : ℤ :=
  let cost : ℤ := if ewf_format_is_s01 then (media.chunk_size : ℤ) + 16
                  else (media.chunk_size : ℤ) + 4
  let max_chunks : ℤ := Int.tdiv (remaining : ℤ) cost
  let sections : ℤ :=
    if unrestrict then 1 else Int.tmod max_chunks (max_section_chunks : ℤ)
  let overhead : ℤ :=
    if ewf_format_is_s01 then sections * 76 + max_chunks * 4
    else if format_is_encase1 then sections * (76 + 4) + max_chunks * 4
    else sections * (3 * 76 + 8) + 2 * max_chunks * 4
  let estimate : ℤ := Int.tdiv ((remaining : ℤ) - overhead) cost
  let clamped : ℤ :=
    if media.media_size > 0 then
      min estimate ((media.amount_of_chunks : ℤ) - (total_chunks_so_far : ℤ))
    else estimate
  min (clamped + (segment_chunks_so_far : ℤ)) (UINT32_MAX : ℤ)

/-- The overhead-adjusted byte budget computed halfway through
`libewf_write_io_handle_calculate_chunks_per_segment` (the value of
`calculated_chunks_per_segment` after the subtractions, before the second
division), built like the translation above from the two's-complement
reinterpretation of the `size64_t` budget (source lines 253 and 276).
Theorems use it to state the no-underflow side condition. -/
def cps_after_overhead
    (remaining_segment_file_size : ℕ)
    (maximum_section_amount_of_chunks : ℕ)
    (media_values : MediaValues)
    (format_is_encase1 : Bool)
    (ewf_format_is_s01 : Bool)
    (unrestrict_offset_amount : Bool) : ℤ :=
  let per_chunk_cost : ℕ :=
    if ewf_format_is_s01 then (media_values.chunk_size + 16) % 2 ^ 32
    else media_values.chunk_size + sizeof_ewf_crc
  let maximum_chunks_per_segment : ℤ :=
    Int.tdiv (int64_of_uint64 remaining_segment_file_size) (per_chunk_cost : ℤ)
  let required_chunk_sections : ℤ :=
    if unrestrict_offset_amount = false then
      Int.tmod maximum_chunks_per_segment (maximum_section_amount_of_chunks : ℤ)
    else 1
  if ewf_format_is_s01 then
    int64_of_uint64 remaining_segment_file_size
      - required_chunk_sections * (sizeof_ewf_section : ℤ)
      - maximum_chunks_per_segment * (sizeof_ewf_table_offset : ℤ)
  else if format_is_encase1 then
    int64_of_uint64 remaining_segment_file_size
      - required_chunk_sections * ((sizeof_ewf_section : ℤ) + (sizeof_ewf_crc : ℤ))
      - maximum_chunks_per_segment * (sizeof_ewf_table_offset : ℤ)
  else
    int64_of_uint64 remaining_segment_file_size
      - required_chunk_sections * (3 * (sizeof_ewf_section : ℤ) + 2 * (sizeof_ewf_crc : ℤ))
      - 2 * maximum_chunks_per_segment * (sizeof_ewf_table_offset : ℤ)

/-- Translation of `libewf_write_io_handle_calculate_chunks_per_chunks_section`
(libewf_write_io_handle.c:360-430).  `chunks_section_number` is a `uint8_t`;
the product `(chunks_section_number - 1) * maximum_section_amount_of_chunks`
is evaluated by C in 32-bit unsigned arithmetic, hence the `% 2 ^ 32`. -/
def libewf_write_io_handle_calculate_chunks_per_chunks_section
    (maximum_section_amount_of_chunks : ℕ)
    (chunks_per_segment : ℕ)
    (chunks_section_number : ℕ)
    (unrestrict_offset_amount : Bool) : Option ℕ :=
  if maximum_section_amount_of_chunks = 0 then none
  else if chunks_section_number = 0 then none
  else
    let remaining0 : ℤ :=
      if chunks_section_number > 1 then
        (chunks_per_segment : ℤ)
          - ((((chunks_section_number - 1) * maximum_section_amount_of_chunks) % 2 ^ 32 : ℕ) : ℤ)
      else (chunks_per_segment : ℤ)
    if remaining0 ≤ 0 then none
    else
      let remaining1 : ℤ :=
        if unrestrict_offset_amount = false ∧ remaining0 > (maximum_section_amount_of_chunks : ℤ)
        then (maximum_section_amount_of_chunks : ℤ)
        else remaining0
      let remaining2 : ℤ :=
        if remaining1 > (INT32_MAX : ℤ) then (INT32_MAX : ℤ) else remaining1
      some remaining2.toNat

/-- The chunks-per-chunks-section computation exactly as claim C4 states it:
`remaining = chunks_per_segment - (chunks_section_number - 1) * maximum`, with
the product taken over the mathematical integers (no 32-bit wrap). -/
def chunks_per_chunks_section_claim
    (max_section_chunks : ℕ) (chunks_per_segment : ℕ)
    (section_number : ℕ) (unrestrict : Bool) : Option ℕ :=
  let remaining : ℤ :=
    (chunks_per_segment : ℤ) - ((section_number : ℤ) - 1) * (max_section_chunks : ℤ)
  if remaining ≤ 0 then none
  else
    let r1 : ℤ :=
      if unrestrict = false ∧ remaining > (max_section_chunks : ℤ)
      then (max_section_chunks : ℤ) else remaining
    some (min r1 ((INT32_MAX : ℕ) : ℤ)).toNat

/-- The chunks-per-chunks-section computation as claim C4 must be amended:
identical to `chunks_per_chunks_section_claim` except that the product
`(chunks_section_number - 1) * maximum_section_amount_of_chunks` wraps in
32-bit unsigned arithmetic, as the C expression does. -/
def chunks_per_chunks_section_amended
    (max_section_chunks : ℕ) (chunks_per_segment : ℕ)
    (section_number : ℕ) (unrestrict : Bool) : Option ℕ :=
  let remaining : ℤ :=
    (chunks_per_segment : ℤ)
      - ((((section_number - 1) * max_section_chunks) % 2 ^ 32 : ℕ) : ℤ)
  if remaining ≤ 0 then none
  else
    let r1 : ℤ :=
      if unrestrict = false ∧ remaining > (max_section_chunks : ℤ)
      then (max_section_chunks : ℤ) else remaining
    some (min r1 ((INT32_MAX : ℕ) : ℤ)).toNat

/-- Translation of `libewf_write_io_handle_test_segment_file_full`
(libewf_write_io_handle.c:435-520).  The source returns 1, 0 or -1; the only -1 is
the NULL `media_values` guard, which has no counterpart here, so the result is
a `Bool`.  Note the source tests `segment_amount_of_chunks >= chunks_per_segment`
and `remaining_segment_file_size < chunk_size + 4` in an if, else-if chain:
for EWF-S01 and EnCase1 the remaining-size test is never evaluated. -/
def libewf_write_io_handle_test_segment_file_full
    (remaining_segment_file_size : ℤ)
    (segment_amount_of_chunks : ℕ)
    (media_values : MediaValues)
    (input_write_count : ℤ)
    (chunks_per_segment : ℕ)
    (current_amount_of_chunks : ℕ)
    (format_is_encase1 : Bool)
    (ewf_format_is_s01 : Bool) : Bool :=
  if media_values.amount_of_chunks ≠ 0
     ∧ media_values.amount_of_chunks = current_amount_of_chunks then true
  else if media_values.media_size ≠ 0
     ∧ input_write_count ≥ int64_of_uint64 media_values.media_size then true
  else if ewf_format_is_s01 ∨ format_is_encase1 then
    if segment_amount_of_chunks ≥ chunks_per_segment then true else false
  else if remaining_segment_file_size
      < (media_values.chunk_size : ℤ) + (sizeof_ewf_crc : ℤ) then true
  else false

/-- The segment-file-full predicate exactly as claim C5 states it: the
disjunction of the four conditions, with the remaining-size condition applying
to every format. -/
def segment_file_full_claim
    (remaining_segment_file_size : ℤ)
    (segment_amount_of_chunks : ℕ)
    (media_values : MediaValues)
    (input_write_count : ℤ)
    (chunks_per_segment : ℕ)
    (current_amount_of_chunks : ℕ)
    (format_is_encase1 : Bool)
    (ewf_format_is_s01 : Bool) : Prop :=
  (media_values.amount_of_chunks ≠ 0
    ∧ media_values.amount_of_chunks = current_amount_of_chunks)
  ∨ (media_values.media_size ≠ 0 ∧ input_write_count ≥ (media_values.media_size : ℤ))
  ∨ ((ewf_format_is_s01 = true ∨ format_is_encase1 = true)
      ∧ segment_amount_of_chunks ≥ chunks_per_segment)
  ∨ remaining_segment_file_size < (media_values.chunk_size : ℤ) + 4

instance (r : ℤ) (sa : ℕ) (m : MediaValues) (iwc : ℤ) (cps : ℕ) (ca : ℕ)
    (e1 s01 : Bool) :
    Decidable (segment_file_full_claim r sa m iwc cps ca e1 s01) := by
  unfold segment_file_full_claim; infer_instance

/-- The segment-file-full predicate as claim C5 must be amended: identical to
`segment_file_full_claim` except that the remaining-size disjunct applies only
to formats other than EWF-S01 and EnCase1. -/
def segment_file_full_amended
    (remaining_segment_file_size : ℤ)
    (segment_amount_of_chunks : ℕ)
    (media_values : MediaValues)
    (input_write_count : ℤ)
    (chunks_per_segment : ℕ)
    (current_amount_of_chunks : ℕ)
    (format_is_encase1 : Bool)
    (ewf_format_is_s01 : Bool) : Prop :=
  (media_values.amount_of_chunks ≠ 0
    ∧ media_values.amount_of_chunks = current_amount_of_chunks)
  ∨ (media_values.media_size ≠ 0 ∧ input_write_count ≥ (media_values.media_size : ℤ))
  ∨ ((ewf_format_is_s01 = true ∨ format_is_encase1 = true)
      ∧ segment_amount_of_chunks ≥ chunks_per_segment)
  ∨ (¬ (ewf_format_is_s01 = true ∨ format_is_encase1 = true)
      ∧ remaining_segment_file_size < (media_values.chunk_size : ℤ) + 4)

instance (r : ℤ) (sa : ℕ) (m : MediaValues) (iwc : ℤ) (cps : ℕ) (ca : ℕ)
    (e1 s01 : Bool) :
    Decidable (segment_file_full_amended r sa m iwc cps ca e1 s01) := by
  unfold segment_file_full_amended; infer_instance

/-- Translation of `libewf_write_io_handle_test_chunks_section_full`
(libewf_write_io_handle.c:525-685).  `none` is the `-1` error return (the
reachable error guard is `maximum_section_amount_of_chunks == 0`; the
`segment_file_offset > INT64_MAX` guard is kept even though it cannot fire for
an in-range `off64_t`).  As in the segment test, the EWF-S01/EnCase1 branch and
the remaining-size test form an if, else-if chain. -/
def libewf_write_io_handle_test_chunks_section_full
    (chunks_section_offset : ℤ)
    (remaining_segment_file_size : ℤ)
    (media_values : MediaValues)
    (input_write_count : ℤ)
    (segment_file_offset : ℤ)
    (maximum_section_amount_of_chunks : ℕ)
    (section_amount_of_chunks : ℕ)
    (current_amount_of_chunks : ℕ)
    (chunks_per_chunks_section : ℕ)
    (format_is_encase1 : Bool)
    (ewf_format_is_s01 : Bool)
    (unrestrict_offset_amount : Bool) : Option Bool :=
  if segment_file_offset > (INT64_MAX : ℤ) then none
  else if maximum_section_amount_of_chunks = 0 then none
  else if chunks_section_offset = 0 then some false
  else if media_values.amount_of_chunks ≠ 0
     ∧ media_values.amount_of_chunks = current_amount_of_chunks then some true
  else if media_values.media_size ≠ 0
     ∧ input_write_count ≥ int64_of_uint64 media_values.media_size then some true
  else if unrestrict_offset_amount = false
     ∧ section_amount_of_chunks ≥ maximum_section_amount_of_chunks then some true
  else if section_amount_of_chunks > INT32_MAX then some true
  else if segment_file_offset - chunks_section_offset > (INT32_MAX : ℤ) then some true
  else if ewf_format_is_s01 ∨ format_is_encase1 then
    if section_amount_of_chunks ≥ chunks_per_chunks_section then some true else some false
  else if remaining_segment_file_size
      < (media_values.chunk_size : ℤ) + (sizeof_ewf_crc : ℤ) then some true
  else some false

/-- The chunks-section-full predicate exactly as claim C6 states it for an open
section (`chunks_section_offset ≠ 0`): the disjunction of the seven conditions,
with the remaining-size condition applying to every format. -/
def chunks_section_full_claim
    (remaining_segment_file_size : ℤ)
    (media_values : MediaValues)
    (input_write_count : ℤ)
    (chunks_section_offset : ℤ)
    (segment_file_offset : ℤ)
    (maximum_section_amount_of_chunks : ℕ)
    (section_amount_of_chunks : ℕ)
    (current_amount_of_chunks : ℕ)
    (chunks_per_chunks_section : ℕ)
    (format_is_encase1 : Bool)
    (ewf_format_is_s01 : Bool)
    (unrestrict_offset_amount : Bool) : Prop :=
  (media_values.amount_of_chunks ≠ 0
    ∧ media_values.amount_of_chunks = current_amount_of_chunks)
  ∨ (media_values.media_size ≠ 0 ∧ input_write_count ≥ (media_values.media_size : ℤ))
  ∨ (unrestrict_offset_amount = false
      ∧ section_amount_of_chunks ≥ maximum_section_amount_of_chunks)
  ∨ section_amount_of_chunks > INT32_MAX
  ∨ segment_file_offset - chunks_section_offset > (INT32_MAX : ℤ)
  ∨ ((ewf_format_is_s01 = true ∨ format_is_encase1 = true)
      ∧ section_amount_of_chunks ≥ chunks_per_chunks_section)
  ∨ remaining_segment_file_size < (media_values.chunk_size : ℤ) + 4

instance (r : ℤ) (m : MediaValues) (iwc cso sfo : ℤ) (ms sa ca cpcs : ℕ)
    (e1 s01 u : Bool) :
    Decidable (chunks_section_full_claim r m iwc cso sfo ms sa ca cpcs e1 s01 u) := by
  unfold chunks_section_full_claim; infer_instance

/-- The chunks-section-full predicate as claim C6 must be amended: identical to
`chunks_section_full_claim` except that the remaining-size disjunct applies
only to formats other than EWF-S01 and EnCase1. -/
def chunks_section_full_amended
    (remaining_segment_file_size : ℤ)
    (media_values : MediaValues)
    (input_write_count : ℤ)
    (chunks_section_offset : ℤ)
    (segment_file_offset : ℤ)
    (maximum_section_amount_of_chunks : ℕ)
    (section_amount_of_chunks : ℕ)
    (current_amount_of_chunks : ℕ)
    (chunks_per_chunks_section : ℕ)
    (format_is_encase1 : Bool)
    (ewf_format_is_s01 : Bool)
    (unrestrict_offset_amount : Bool) : Prop :=
  (media_values.amount_of_chunks ≠ 0
    ∧ media_values.amount_of_chunks = current_amount_of_chunks)
  ∨ (media_values.media_size ≠ 0 ∧ input_write_count ≥ (media_values.media_size : ℤ))
  ∨ (unrestrict_offset_amount = false
      ∧ section_amount_of_chunks ≥ maximum_section_amount_of_chunks)
  ∨ section_amount_of_chunks > INT32_MAX
  ∨ segment_file_offset - chunks_section_offset > (INT32_MAX : ℤ)
  ∨ ((ewf_format_is_s01 = true ∨ format_is_encase1 = true)
      ∧ section_amount_of_chunks ≥ chunks_per_chunks_section)
  ∨ (¬ (ewf_format_is_s01 = true ∨ format_is_encase1 = true)
      ∧ remaining_segment_file_size < (media_values.chunk_size : ℤ) + 4)

instance (r : ℤ) (m : MediaValues) (iwc cso sfo : ℤ) (ms sa ca cpcs : ℕ)
    (e1 s01 u : Bool) :
    Decidable (chunks_section_full_amended r m iwc cso sfo ms sa ca cpcs e1 s01 u) := by
  unfold chunks_section_full_amended; infer_instance

/-- EWF_COMPRESSION_NONE. -/
def EWF_COMPRESSION_NONE : ℤ := 0

/-- EWF_COMPRESSION_DEFAULT (zlib Z_DEFAULT_COMPRESSION). -/
def EWF_COMPRESSION_DEFAULT : ℤ := -1

/-- Little-endian 4-byte encoding of a 32-bit value
(`endian_little_revert_32bit`). -/
def le32_bytes (v : ℕ) : List ℕ :=
  [v % 256, v / 256 % 256, v / 65536 % 256, v / 16777216 % 256]

/-- The 32-bit value held by (up to) four little-endian bytes. -/
def le32_value : List ℕ → ℕ
  | b0 :: b1 :: b2 :: b3 :: _ => b0 + 256 * b1 + 65536 * b2 + 16777216 * b3
  | _ => 0

/-- The 32-bit value held by the last four bytes of a byte stream; claim C2
reads the trailing zlib checksum of a compressed chunk this way. -/
def last_four_le (s : List ℕ) : ℕ :=
  le32_value ((s.drop (s.length - 4)).take 4)

/-- Translation of `libewf_write_io_handle_test_empty_block`
(libewf_write_io_handle.c:157-195): scans whether every byte of the buffer
equals the byte at index 0 (the loop runs from index 1 and compares against
`buffer[0]`); `none` is the `-1` error return for an oversized buffer. -/
def libewf_write_io_handle_test_empty_block (buffer : List ℕ) : Option Bool :=
  if buffer.length > SSIZE_MAX then none
  else
    match buffer with
    | [] => some true
    | b :: rest => some (rest.all (fun x => x == b))

/-- Pointer identities between the caller's buffers and the chunk-cache
buffers, as tested by `libewf_write_io_handle_process_chunk`. -/
structure ChunkCacheView where
  chunk_is_cache_data : Bool
  compressed_is_cache_compressed : Bool
  chunk_aliases_cache_compressed : Bool
  chunk_aliases_compressed : Bool
deriving DecidableEq

/-- The outputs of a successful `libewf_write_io_handle_process_chunk` call:
the returned byte count, the bytes now designated for writing, which buffer
they sit in, the `is_compressed` and `write_crc` flags, the CRC, and the final
value of `*compressed_chunk_data_size`. -/
structure ProcessedChunk where
  data_write_size : ℕ
  out_bytes : List ℕ
  from_compressed : Bool
  is_compressed : Bool
  chunk_crc : ℕ
  write_crc : Bool
  compressed_size : ℕ
deriving DecidableEq

/-- The compression level `libewf_write_io_handle_process_chunk` actually
compresses with (libewf_write_io_handle.c:813-842): the caller's level, or
EWF_COMPRESSION_DEFAULT when the level is none, `compress_empty_block` is set
and the block scans as empty; `none` propagates an empty-block scan error. -/
def process_chunk_effective_level (compression_level : ℤ)
    (compress_empty_block : Bool) (chunk_data : List ℕ) : Option ℤ :=
  if compression_level = EWF_COMPRESSION_NONE ∧ compress_empty_block then
    match libewf_write_io_handle_test_empty_block chunk_data with
    | none => none
    | some true => some EWF_COMPRESSION_DEFAULT
    | some false => some compression_level
  else some compression_level

/-- The tail of `libewf_write_io_handle_process_chunk`
(libewf_write_io_handle.c:956-1008): decide the on-wire form from
`*compressed_chunk_data_size` and package the result.  `compressed_content`
is the content of the compressed buffer at that point and `compressed_size`
the value of `*compressed_chunk_data_size`. -/
def process_chunk_pack
    (crc_calculate : List ℕ → ℕ → ℕ)
    (media_values : MediaValues)
    (ewf_format_is_s01 : Bool)
    (chunk_data : List ℕ)
    (compressed_content : List ℕ)
    (compressed_size : ℕ)
    (cache : ChunkCacheView) : ProcessedChunk :=
  if ewf_format_is_s01
     ∨ (0 < compressed_size ∧ compressed_size < media_values.chunk_size) then
    { data_write_size := compressed_size
      out_bytes := compressed_content
      from_compressed := true
      is_compressed := true
      chunk_crc := le32_value ((compressed_content.drop (compressed_size - sizeof_ewf_crc)).take 4)
      write_crc := false
      compressed_size := compressed_size }
  else
    let crc := crc_calculate chunk_data 1
    if cache.chunk_is_cache_data then
      { data_write_size := chunk_data.length + sizeof_ewf_crc
        out_bytes := chunk_data ++ le32_bytes crc
        from_compressed := false
        is_compressed := false
        chunk_crc := crc
        write_crc := false
        compressed_size := compressed_size }
    else
      { data_write_size := chunk_data.length
        out_bytes := chunk_data
        from_compressed := false
        is_compressed := false
        chunk_crc := crc
        write_crc := true
        compressed_size := compressed_size }

/-- Translation of `libewf_write_io_handle_process_chunk`
(libewf_write_io_handle.c:690-1009).  `compressed_buffer_size` is the entry
value of `*compressed_chunk_data_size` (the destination capacity) and
`compressed_buffer_content` the entry content of the compressed buffer.  When
the first `libewf_compress` reports a too-small buffer and the buffer is the
chunk cache's compressed buffer, the cache is resized to the reported size and
the call retried, which then succeeds; a reallocation moves the cache buffers
but preserves their contents, so the byte lists are unchanged.  When no
compression runs, `*compressed_chunk_data_size` keeps its entry value and the
on-wire decision reads that stale value, exactly as the source does. -/
def libewf_write_io_handle_process_chunk
    (compress : List ℕ → ℤ → Option (List ℕ))
    (crc_calculate : List ℕ → ℕ → ℕ)
    (media_values : MediaValues)
    (compression_level : ℤ)
    (compress_empty_block : Bool)
    (ewf_format_is_s01 : Bool)
    (chunk_data : List ℕ)
    (compressed_buffer_content : List ℕ)
    (compressed_buffer_size : ℕ)
    (cache : ChunkCacheView) : Option ProcessedChunk :=
  if cache.chunk_aliases_cache_compressed then none
  else if chunk_data.length > SSIZE_MAX then none
  else if chunk_data.length > media_values.chunk_size then none
  else
    match process_chunk_effective_level compression_level compress_empty_block chunk_data with
    | none => none
    | some chunk_compression_level =>
      if ewf_format_is_s01 ∨ chunk_compression_level ≠ EWF_COMPRESSION_NONE then
        if cache.chunk_aliases_compressed then none
        else if compressed_buffer_size > SSIZE_MAX then none
        else
          match compress chunk_data chunk_compression_level with
          | none => none
          | some compressed_out =>
            if compressed_out.length ≤ compressed_buffer_size then
              some (process_chunk_pack crc_calculate media_values ewf_format_is_s01
                chunk_data compressed_out compressed_out.length cache)
            else if cache.compressed_is_cache_compressed ∧ 0 < compressed_out.length then
              some (process_chunk_pack crc_calculate media_values ewf_format_is_s01
                chunk_data compressed_out compressed_out.length cache)
            else none
      else
        some (process_chunk_pack crc_calculate media_values ewf_format_is_s01
          chunk_data compressed_buffer_content compressed_buffer_size cache)

/-- The counters of `libewf_write_io_handle_t` that
`libewf_write_io_handle_write_new_chunk` updates after a successful write;
none of them is touched before the chunk data is written. -/
structure WriteCounters where
  input_write_count : ℤ
  write_count : ℤ
  segment_amount_of_chunks : ℕ
  section_amount_of_chunks : ℕ
  amount_of_chunks : ℕ
deriving DecidableEq

/-- Outcome of the entry checks of `libewf_write_io_handle_write_new_chunk`:
`invalid` is the `-1` error return, `zero` the `return( 0 )` paths, and
`proceed` means the call goes on to create segment files, open a chunks
section and write the chunk. -/
inductive NewChunkOutcome
  | invalid
  | zero
  | proceed
deriving DecidableEq

/-- Translation of the entry checks of `libewf_write_io_handle_write_new_chunk`
(libewf_write_io_handle.c:1121-1200), in source order: the already-set test on
the offset table, the `write_finalized` test, the offset-table resize to
`media_values->amount_of_chunks` (new entries have no segment file handle),
the chunk buffer and chunk size guards, and the media-size test.
`offset_table_has_handle` holds, per chunk index, whether the offset-table
entry has a segment file handle.  The result carries the offset table and the
counters as they stand when the check sequence finishes. -/
def libewf_write_io_handle_write_new_chunk_entry
    (write_finalized : Bool)
    (counters : WriteCounters)
    (offset_table_has_handle : List Bool)
    (media_values : MediaValues)
    (chunk : ℕ)
    (chunk_buffer_is_null : Bool)
    (chunk_size : ℕ) :
    NewChunkOutcome × List Bool × WriteCounters :=
  if chunk < offset_table_has_handle.length ∧ offset_table_has_handle.getD chunk false then
    (NewChunkOutcome.invalid, offset_table_has_handle, counters)
  else if write_finalized then
    (NewChunkOutcome.zero, offset_table_has_handle, counters)
  else
    let resized :=
      if offset_table_has_handle.length < media_values.amount_of_chunks then
        offset_table_has_handle
          ++ List.replicate (media_values.amount_of_chunks - offset_table_has_handle.length) false
      else offset_table_has_handle
    if chunk_buffer_is_null then (NewChunkOutcome.invalid, resized, counters)
    else if chunk_size = 0 then (NewChunkOutcome.invalid, resized, counters)
    else if chunk_size > SSIZE_MAX then (NewChunkOutcome.invalid, resized, counters)
    else if media_values.media_size ≠ 0
        ∧ counters.input_write_count ≥ int64_of_uint64 media_values.media_size then
      (NewChunkOutcome.zero, resized, counters)
    else (NewChunkOutcome.proceed, resized, counters)

/-- The I/O-level steps `libewf_write_io_handle_write_existing_chunk` performs,
in order, on the delta segment chain. -/
inductive DeltaWriteAction
  | seek_offset (o : ℤ)
  | write_last_section (is_last_segment : Bool)
  | create_delta_segment (n : ℕ)
  | write_segment_start (n : ℕ)
  | remove_last_section_element
  | write_delta_chunk (no_section_append : Bool)
deriving DecidableEq

/-- Translation of `libewf_write_io_handle_write_existing_chunk`
(libewf_write_io_handle.c:1790-2303).  `owner_is_delta` is whether the chunk's
offset-table entry points into a delta (DWF) segment file;
`last_segment_sections` is the section list of the last delta segment (start
offsets, in order) and `current_offset` the file offset the I/O pool reports
for it; `sizeof_delta_chunk_header` stands for sizeof(ewfx_delta_chunk_header_t),
whose value this translation unit never fixes.  The result is the ordered list
of writer actions together with the section list of that pre-existing delta
segment after the removal this function itself performs (the sections the
called writers append are theirs to record).  `delta_amount` is a uint16, so
`delta_segment_table->amount - 1` wraps modulo 2^16. -/
def libewf_write_io_handle_write_existing_chunk_model
    (segment_file_size : ℕ)
    (owner_is_delta : Bool)
    (chunk_file_offset : ℤ)
    (delta_amount : ℕ)
    (last_segment_sections : List ℤ)
    (current_offset : ℤ)
    (chunk_size : ℕ)
    (is_compressed : Bool)
    (sizeof_delta_chunk_header : ℕ) :
    Option (List DeltaWriteAction × List ℤ) :=
  if chunk_size = 0 then none
  else if chunk_size > SSIZE_MAX then none
  else if is_compressed then none
  else if owner_is_delta = false then
    let segment_number := (delta_amount + 65535) % 65536
    if segment_number > delta_amount then none
    else if segment_number ≠ 0 then
      match last_segment_sections.getLast? with
      | none => none
      | some last_section_start_offset =>
        let seek_steps : List DeltaWriteAction :=
          if current_offset ≠ last_section_start_offset then
            [DeltaWriteAction.seek_offset last_section_start_offset]
          else []
        let segment_file_offset : ℤ :=
          last_section_start_offset + (chunk_size : ℤ) + (sizeof_ewf_crc : ℤ)
            + (sizeof_ewf_section : ℤ)
        if segment_file_offset > (segment_file_size : ℤ) then
          some (seek_steps
            ++ [DeltaWriteAction.write_last_section false,
                DeltaWriteAction.create_delta_segment (segment_number + 1),
                DeltaWriteAction.write_segment_start (segment_number + 1),
                DeltaWriteAction.write_delta_chunk false,
                DeltaWriteAction.write_last_section true],
            last_segment_sections)
        else
          some (seek_steps
            ++ [DeltaWriteAction.remove_last_section_element,
                DeltaWriteAction.write_delta_chunk false,
                DeltaWriteAction.write_last_section true],
            last_segment_sections.dropLast)
    else
      some ([DeltaWriteAction.create_delta_segment 1,
             DeltaWriteAction.write_segment_start 1,
             DeltaWriteAction.write_delta_chunk false,
             DeltaWriteAction.write_last_section true],
        last_segment_sections)
  else
    some ([DeltaWriteAction.seek_offset
             (chunk_file_offset - (sizeof_delta_chunk_header : ℤ) - (sizeof_ewf_section : ℤ)),
           DeltaWriteAction.write_delta_chunk true],
      last_segment_sections)

/-- Outcome of `libewf_write_io_handle_initialize`: the two `-1` error returns,
the path that reaches `memory_set` with a NULL destination, and the `return(1)`
successes (`fresh` records whether a handle was allocated by this call). -/
inductive InitializeOutcome
  | invalid_argument
  | memory_insufficient
  | memory_set_on_null
  | success (fresh : Bool)
deriving DecidableEq

/-- Translation of `libewf_write_io_handle_initialize`
(libewf_write_io_handle.c:53-112).  `param_is_null` models
`write_io_handle == NULL` (the parameter), `handle_is_null` models
`*write_io_handle == NULL` on entry, and `allocation_succeeds` whether
`memory_allocate` returns a buffer.  The guard after the allocation tests
`write_io_handle == NULL` - the parameter again, not the allocation result -
exactly as the source does, so a failed allocation falls through to
`memory_set( *write_io_handle, ... )` with a NULL destination. -/
def libewf_write_io_handle_initialize_model
    (param_is_null : Bool)
    (handle_is_null : Bool)
    (allocation_succeeds : Bool) : InitializeOutcome :=
  if param_is_null then InitializeOutcome.invalid_argument
  else if handle_is_null = false then InitializeOutcome.success false
  else
    if param_is_null then InitializeOutcome.memory_insufficient
    else if allocation_succeeds = false then InitializeOutcome.memory_set_on_null
    else InitializeOutcome.success true

/-- A `uint64` value within the signed range reinterprets to itself. -/
theorem int64_of_uint64_eq_of_le {n : ℕ} (h : n ≤ INT64_MAX) :
    int64_of_uint64 n = (n : ℤ) := by
  unfold int64_of_uint64
  unfold INT64_MAX at h
  have h1 : n % 2 ^ 64 = n := Nat.mod_eq_of_lt (by omega)
  rw [h1, if_pos (show n < 2 ^ 63 by omega)]

/-- A truncate-from-above conditional is a minimum. -/
theorem ite_gt_eq_min (a b : ℤ) : (if a > b then b else a) = min a b := by
  rcases le_or_lt a b with h | h
  · rw [if_neg (not_lt.mpr h), min_eq_left h]
  · rw [if_pos h, min_eq_right (le_of_lt h)]

/-- A clamp-from-above conditional, tested the other way round, is a minimum. -/
theorem ite_lt_eq_min (a b : ℤ) : (if a < b then a else b) = min b a := by
  rcases lt_or_le a b with h | h
  · rw [if_pos h, min_eq_right (le_of_lt h)]
  · rw [if_neg (not_lt.mpr h), min_eq_left h]

/-- Claim C10: in libewf_write_io_handle_initialize, the null test performed
after memory_allocate reads the already-validated parameter write_io_handle
instead of the allocation result *write_io_handle, so for every call with a
valid parameter and a null *write_io_handle the memory-insufficient error
branch is unreachable, and if the allocation returns NULL the function
proceeds to call memory_set on a NULL destination rather than returning -1. -/
theorem claim_C10_initialize_null_test :
    (∀ allocation_succeeds : Bool,
      libewf_write_io_handle_initialize_model false true allocation_succeeds
        ≠ InitializeOutcome.memory_insufficient)
    ∧ libewf_write_io_handle_initialize_model false true false
        = InitializeOutcome.memory_set_on_null := by
  constructor
  · intro a
    cases a <;> decide
  · decide

/-- Claim C8: for every call of libewf_write_io_handle_write_new_chunk with
otherwise valid arguments: when write_finalized = 1 the call returns 0 and is
not an error; when media_size > 0 and input_write_count >= media_size the call
returns 0; and when the offset table already holds a primary entry (a non-null
segment-file handle) for the requested chunk index the call fails with an
error, writing no bytes and changing no counters (the offset table and the
write counters are returned exactly as they were passed in). -/
theorem claim_C8_write_new_chunk_entry
    (write_finalized : Bool) (counters : WriteCounters)
    (offset_table_has_handle : List Bool) (media_values : MediaValues)
    (chunk : ℕ) (chunk_buffer_is_null : Bool) (chunk_size : ℕ) :
    (¬ (chunk < offset_table_has_handle.length
        ∧ offset_table_has_handle.getD chunk false) →
      write_finalized = true →
      (libewf_write_io_handle_write_new_chunk_entry write_finalized counters
        offset_table_has_handle media_values chunk chunk_buffer_is_null
        chunk_size).1 = NewChunkOutcome.zero)
    ∧ (¬ (chunk < offset_table_has_handle.length
        ∧ offset_table_has_handle.getD chunk false) →
      write_finalized = false →
      chunk_buffer_is_null = false →
      chunk_size ≠ 0 →
      chunk_size ≤ SSIZE_MAX →
      media_values.media_size ≠ 0 →
      media_values.media_size ≤ INT64_MAX →
      counters.input_write_count ≥ (media_values.media_size : ℤ) →
      (libewf_write_io_handle_write_new_chunk_entry write_finalized counters
        offset_table_has_handle media_values chunk chunk_buffer_is_null
        chunk_size).1 = NewChunkOutcome.zero)
    ∧ ((chunk < offset_table_has_handle.length
        ∧ offset_table_has_handle.getD chunk false) →
      libewf_write_io_handle_write_new_chunk_entry write_finalized counters
        offset_table_has_handle media_values chunk chunk_buffer_is_null
        chunk_size
        = (NewChunkOutcome.invalid, offset_table_has_handle, counters)) := by
  refine ⟨?_, ?_, ?_⟩
  · intro hset hfin
    rw [libewf_write_io_handle_write_new_chunk_entry, if_neg hset, if_pos hfin]
  · intro hset hfin hbuf hsz hszmax hms hms64 hiwc
    rw [libewf_write_io_handle_write_new_chunk_entry]
    rw [if_neg hset, if_neg (by simp [hfin]), if_neg (by simp [hbuf]),
      if_neg hsz, if_neg (by omega),
      if_pos ⟨hms, by rw [int64_of_uint64_eq_of_le hms64]; exact hiwc⟩]
  · intro hset
    rw [libewf_write_io_handle_write_new_chunk_entry, if_pos hset]

/-- Concrete instantiation of claim C8's theorem: finalized write on a fresh
table, media limit reached, and a chunk index whose entry is already set. -/
theorem claim_C8_witness :
    (libewf_write_io_handle_write_new_chunk_entry true ⟨0, 0, 0, 0, 0⟩ [false]
      ⟨64, 0, 0⟩ 0 false 64).1 = NewChunkOutcome.zero
    ∧ (libewf_write_io_handle_write_new_chunk_entry false ⟨128, 0, 0, 0, 0⟩ [false]
      ⟨64, 128, 2⟩ 0 false 64).1 = NewChunkOutcome.zero
    ∧ libewf_write_io_handle_write_new_chunk_entry false ⟨0, 0, 0, 0, 0⟩ [true]
      ⟨64, 0, 0⟩ 0 false 64
      = (NewChunkOutcome.invalid, [true], ⟨0, 0, 0, 0, 0⟩) := by
  refine ⟨?_, ?_, ?_⟩
  · exact (claim_C8_write_new_chunk_entry true ⟨0, 0, 0, 0, 0⟩ [false]
      ⟨64, 0, 0⟩ 0 false 64).1 (by decide) rfl
  · exact (claim_C8_write_new_chunk_entry false ⟨128, 0, 0, 0, 0⟩ [false]
      ⟨64, 128, 2⟩ 0 false 64).2.1 (by decide) rfl rfl (by decide) (by decide)
      (by decide) (by decide) (by decide)
  · exact (claim_C8_write_new_chunk_entry false ⟨0, 0, 0, 0, 0⟩ [true]
      ⟨64, 0, 0⟩ 0 false 64).2.2 (by decide)

/-- Claim C9: on the delta-append path of
libewf_write_io_handle_write_existing_chunk (the chunk's current owner is a
primary EWF-type segment and a delta segment already exists): when the last
section's start offset plus chunk_size plus the CRC size plus the
section-header size exceeds segment_file_size, the engine writes a last
section (emitting next) into the existing delta segment and then creates a new
delta segment and writes its start; otherwise it removes the terminator's
descriptor from the segment's section list, frees it, and writes the new delta
chunk over the terminator, followed by a done terminator.  The hypotheses fix
the delta table to hold segment number delta_amount - 1 >= 1, a section list
ending at last_start, and a file position already at last_start. -/
theorem claim_C9_write_existing_chunk_append
    (segment_file_size : ℕ) (chunk_file_offset : ℤ) (delta_amount : ℕ)
    (sections : List ℤ) (last_start : ℤ) (chunk_size : ℕ)
    (sizeof_delta_chunk_header : ℕ)
    (hdelta_lo : 2 ≤ delta_amount) (hdelta_hi : delta_amount ≤ 65535)
    (hlast : sections.getLast? = some last_start)
    (hcs0 : chunk_size ≠ 0) (hcs1 : chunk_size ≤ SSIZE_MAX) :
    (last_start + (chunk_size : ℤ) + (sizeof_ewf_crc : ℤ) + (sizeof_ewf_section : ℤ)
        > (segment_file_size : ℤ) →
      libewf_write_io_handle_write_existing_chunk_model segment_file_size false
        chunk_file_offset delta_amount sections last_start chunk_size false
        sizeof_delta_chunk_header
      = some ([DeltaWriteAction.write_last_section false,
               DeltaWriteAction.create_delta_segment delta_amount,
               DeltaWriteAction.write_segment_start delta_amount,
               DeltaWriteAction.write_delta_chunk false,
               DeltaWriteAction.write_last_section true], sections))
    ∧ (last_start + (chunk_size : ℤ) + (sizeof_ewf_crc : ℤ) + (sizeof_ewf_section : ℤ)
        ≤ (segment_file_size : ℤ) →
      libewf_write_io_handle_write_existing_chunk_model segment_file_size false
        chunk_file_offset delta_amount sections last_start chunk_size false
        sizeof_delta_chunk_header
      = some ([DeltaWriteAction.remove_last_section_element,
               DeltaWriteAction.write_delta_chunk false,
               DeltaWriteAction.write_last_section true], sections.dropLast)) := by
  have hseg : (delta_amount + 65535) % 65536 = delta_amount - 1 := by omega
  have h0 : ¬ chunk_size > SSIZE_MAX := by omega
  have h1 : ¬ delta_amount - 1 > delta_amount := by omega
  have h2 : delta_amount - 1 ≠ 0 := by omega
  have h3 : delta_amount - 1 + 1 = delta_amount := by omega
  constructor
  · intro hfit
    simp only [libewf_write_io_handle_write_existing_chunk_model, hseg, hlast, h3,
      if_neg hcs0, if_neg h0, if_neg h1, if_pos h2, if_pos hfit]
    simp
  · intro hfit
    have hf2 : ¬ (last_start + (chunk_size : ℤ) + (sizeof_ewf_crc : ℤ)
        + (sizeof_ewf_section : ℤ) > (segment_file_size : ℤ)) := not_lt.mpr hfit
    simp only [libewf_write_io_handle_write_existing_chunk_model, hseg, hlast,
      if_neg hcs0, if_neg h0, if_neg h1, if_pos h2, if_neg hf2]
    simp

/-- Concrete instantiation of claim C9's theorem: both the segment-rollover
branch and the overwrite-the-terminator branch at explicit offsets. -/
theorem claim_C9_witness :
    ((1000000 : ℤ) + 65536 + 4 + 76 > (100000 : ℕ)
      ∧ libewf_write_io_handle_write_existing_chunk_model 100000 false 0 2
          [13, 1000000] 1000000 65536 false 6
        = some ([DeltaWriteAction.write_last_section false,
                 DeltaWriteAction.create_delta_segment 2,
                 DeltaWriteAction.write_segment_start 2,
                 DeltaWriteAction.write_delta_chunk false,
                 DeltaWriteAction.write_last_section true], [13, 1000000]))
    ∧ ((89 : ℤ) + 64 + 4 + 76 ≤ (100000 : ℕ)
      ∧ libewf_write_io_handle_write_existing_chunk_model 100000 false 0 2
          [13, 89] 89 64 false 6
        = some ([DeltaWriteAction.remove_last_section_element,
                 DeltaWriteAction.write_delta_chunk false,
                 DeltaWriteAction.write_last_section true], [13])) := by
  constructor
  · refine ⟨by decide, ?_⟩
    exact (claim_C9_write_existing_chunk_append 100000 0 2 [13, 1000000] 1000000
      65536 6 (by decide) (by decide) (by decide) (by decide) (by decide)).1
      (by decide)
  · refine ⟨by decide, ?_⟩
    exact (claim_C9_write_existing_chunk_append 100000 0 2 [13, 89] 89
      64 6 (by decide) (by decide) (by decide) (by decide) (by decide)).2
      (by decide)

/-- Claim C4 counterexample: with maximum_section_amount_of_chunks =
2147483647, chunks_per_segment = 4294967295, chunks_section_number = 4 and
unrestrict set, the claim's remaining value 4294967295 - 3 * 2147483647 is
negative, so the claim requires an error return; the code computes the product
in 32-bit unsigned arithmetic (3 * 2147483647 wraps to 2147483645), obtains a
positive remaining value and returns 1 with the saturated value 2147483647. -/
theorem claim_C4_counterexample :
    libewf_write_io_handle_calculate_chunks_per_chunks_section
      2147483647 4294967295 4 true = some 2147483647
    ∧ chunks_per_chunks_section_claim 2147483647 4294967295 4 true = none
    ∧ (4294967295 : ℤ) - ((4 : ℤ) - 1) * 2147483647 ≤ 0 := by
  refine ⟨by decide, by decide, by decide⟩

/-- Claim C4 as amended: for all inputs with a non-null output pointer,
maximum_section_amount_of_chunks > 0 and chunks_section_number >= 1,
libewf_write_io_handle_calculate_chunks_per_chunks_section computes
remaining = chunks_per_segment - (((chunks_section_number - 1) *
maximum_section_amount_of_chunks) mod 2^32) - the product is evaluated in
32-bit unsigned arithmetic - returns an error when this value is <= 0, clamps
it to maximum_section_amount_of_chunks when unrestrict_offset_amount = 0 and
it exceeds that maximum, saturates it at 2^31 - 1, stores it in the output and
returns 1. -/
theorem claim_C4_amended_chunks_per_chunks_section
    (maximum_section_amount_of_chunks chunks_per_segment chunks_section_number : ℕ)
    (unrestrict_offset_amount : Bool)
    (hmax : 0 < maximum_section_amount_of_chunks)
    (hn : 1 ≤ chunks_section_number) :
    libewf_write_io_handle_calculate_chunks_per_chunks_section
      maximum_section_amount_of_chunks chunks_per_segment chunks_section_number
      unrestrict_offset_amount
    = chunks_per_chunks_section_amended maximum_section_amount_of_chunks
      chunks_per_segment chunks_section_number unrestrict_offset_amount := by
  unfold libewf_write_io_handle_calculate_chunks_per_chunks_section
    chunks_per_chunks_section_amended
  rw [if_neg (by omega), if_neg (by omega)]
  have hrem : (if chunks_section_number > 1 then
      (chunks_per_segment : ℤ)
        - ((((chunks_section_number - 1) * maximum_section_amount_of_chunks) % 2 ^ 32 : ℕ) : ℤ)
      else (chunks_per_segment : ℤ))
    = (chunks_per_segment : ℤ)
        - ((((chunks_section_number - 1) * maximum_section_amount_of_chunks) % 2 ^ 32 : ℕ) : ℤ) := by
    rcases Nat.lt_or_ge 1 chunks_section_number with h | h
    · rw [if_pos h]
    · have he : chunks_section_number = 1 := by omega
      subst he
      norm_num
  rw [hrem]
  by_cases hle : (chunks_per_segment : ℤ)
      - ((((chunks_section_number - 1) * maximum_section_amount_of_chunks) % 2 ^ 32 : ℕ) : ℤ) ≤ 0
  · rw [if_pos hle, if_pos hle]
  · rw [if_neg hle, if_neg hle]
    simp only []
    rw [ite_gt_eq_min]

/-- Concrete instantiation of claim C4's amended theorem. -/
theorem claim_C4_amended_witness :
    libewf_write_io_handle_calculate_chunks_per_chunks_section 16375 100000 3 false
    = chunks_per_chunks_section_amended 16375 100000 3 false :=
  claim_C4_amended_chunks_per_chunks_section 16375 100000 3 false
    (by decide) (by decide)

/-- Claim C5 counterexample: under EWF-S01, with all chunk and media limits
inactive, remaining_segment_file_size = 0 cannot hold one more chunk of size
8 plus the 4-byte CRC, so the claim's disjunction holds and requires a "full"
result; the code never evaluates the remaining-size test for EWF-S01 (it sits
in the else-branch of the format test) and reports "not full". -/
theorem claim_C5_counterexample :
    libewf_write_io_handle_test_segment_file_full 0 0 ⟨8, 0, 0⟩ 0 5 0 false true
      = false
    ∧ segment_file_full_claim 0 0 ⟨8, 0, 0⟩ 0 5 0 false true := by
  refine ⟨by decide, by decide⟩

/-- Claim C5 as amended: for all inputs with non-null media values (and a
media size within the signed 64-bit range),
libewf_write_io_handle_test_segment_file_full returns 1 (full) when any of the
following holds, and 0 otherwise: media amount_of_chunks is nonzero and equals
the current amount of chunks written; media_size is nonzero and
input_write_count >= media_size; for ewf_format S01 or format EnCase1,
segment_amount_of_chunks >= chunks_per_segment; or - for every other format -
remaining_segment_file_size is smaller than chunk_size plus the 4-byte CRC. -/
theorem claim_C5_amended_segment_file_full
    (remaining_segment_file_size : ℤ) (segment_amount_of_chunks : ℕ)
    (media_values : MediaValues) (input_write_count : ℤ)
    (chunks_per_segment : ℕ) (current_amount_of_chunks : ℕ)
    (format_is_encase1 : Bool) (ewf_format_is_s01 : Bool)
    (hms : media_values.media_size ≤ INT64_MAX) :
    libewf_write_io_handle_test_segment_file_full remaining_segment_file_size
      segment_amount_of_chunks media_values input_write_count
      chunks_per_segment current_amount_of_chunks format_is_encase1
      ewf_format_is_s01 = true
    ↔ segment_file_full_amended remaining_segment_file_size
      segment_amount_of_chunks media_values input_write_count
      chunks_per_segment current_amount_of_chunks format_is_encase1
      ewf_format_is_s01 := by
  unfold libewf_write_io_handle_test_segment_file_full segment_file_full_amended
  rw [int64_of_uint64_eq_of_le hms]
  unfold sizeof_ewf_crc
  split_ifs with h1 h2 h3 h4 h5 <;> simp_all [Bool.not_eq_true] <;>
    first | tauto | omega

/-- Concrete instantiation of claim C5's amended theorem. -/
theorem claim_C5_amended_witness :
    libewf_write_io_handle_test_segment_file_full 0 0 ⟨8, 0, 0⟩ 0 5 0 false true
      = true
    ↔ segment_file_full_amended 0 0 ⟨8, 0, 0⟩ 0 5 0 false true :=
  claim_C5_amended_segment_file_full 0 0 ⟨8, 0, 0⟩ 0 5 0 false true (by decide)

/-- Claim C6 counterexample: with a chunks section open at offset 89, under
EWF-S01, all other limits inactive and remaining_segment_file_size = 0 unable
to hold one more chunk of size 8 plus the 4-byte CRC, the claim's disjunction
holds and requires a "full" result; the code never evaluates the
remaining-size test for EWF-S01 and reports "not full". -/
theorem claim_C6_counterexample :
    libewf_write_io_handle_test_chunks_section_full 89 0 ⟨8, 0, 0⟩ 0 89 10 0 0 5
      false true false = some false
    ∧ chunks_section_full_claim 0 ⟨8, 0, 0⟩ 0 89 89 10 0 0 5 false true false := by
  refine ⟨by decide, by decide⟩

/-- Claim C6 as amended: for all inputs with non-null media values (and a
media size within the signed 64-bit range), maximum_section_amount_of_chunks
> 0 and a non-negative in-range segment file offset,
libewf_write_io_handle_test_chunks_section_full returns 0 when
chunks_section_offset = 0 (no section open); otherwise it returns 1 exactly
when any of the following holds: all required chunks have been written; all
input has been consumed; unrestrict is off and section_amount_of_chunks >=
maximum_section_amount_of_chunks; section_amount_of_chunks > 2^31 - 1;
segment_file_offset - chunks_section_offset > 2^31 - 1; for S01/EnCase1,
section_amount_of_chunks >= chunks_per_chunks_section; or - for every other
format - remaining_segment_file_size is smaller than chunk_size plus the
4-byte CRC. -/
theorem claim_C6_amended_chunks_section_full
    (chunks_section_offset : ℤ) (remaining_segment_file_size : ℤ)
    (media_values : MediaValues) (input_write_count : ℤ)
    (segment_file_offset : ℤ) (maximum_section_amount_of_chunks : ℕ)
    (section_amount_of_chunks : ℕ) (current_amount_of_chunks : ℕ)
    (chunks_per_chunks_section : ℕ) (format_is_encase1 : Bool)
    (ewf_format_is_s01 : Bool) (unrestrict_offset_amount : Bool)
    (hoff0 : 0 ≤ segment_file_offset)
    (hoff1 : segment_file_offset ≤ (INT64_MAX : ℤ))
    (hmax : 0 < maximum_section_amount_of_chunks)
    (hms : media_values.media_size ≤ INT64_MAX) :
    (chunks_section_offset = 0 →
      libewf_write_io_handle_test_chunks_section_full chunks_section_offset
        remaining_segment_file_size media_values input_write_count
        segment_file_offset maximum_section_amount_of_chunks
        section_amount_of_chunks current_amount_of_chunks
        chunks_per_chunks_section format_is_encase1 ewf_format_is_s01
        unrestrict_offset_amount = some false)
    ∧ (chunks_section_offset ≠ 0 →
      (libewf_write_io_handle_test_chunks_section_full chunks_section_offset
        remaining_segment_file_size media_values input_write_count
        segment_file_offset maximum_section_amount_of_chunks
        section_amount_of_chunks current_amount_of_chunks
        chunks_per_chunks_section format_is_encase1 ewf_format_is_s01
        unrestrict_offset_amount = some true
      ↔ chunks_section_full_amended remaining_segment_file_size media_values
        input_write_count chunks_section_offset segment_file_offset
        maximum_section_amount_of_chunks section_amount_of_chunks
        current_amount_of_chunks chunks_per_chunks_section format_is_encase1
        ewf_format_is_s01 unrestrict_offset_amount)) := by
  constructor
  · intro hz
    unfold libewf_write_io_handle_test_chunks_section_full
    rw [if_neg (by omega), if_neg (by omega), if_pos hz]
  · intro hz
    unfold libewf_write_io_handle_test_chunks_section_full
      chunks_section_full_amended
    rw [int64_of_uint64_eq_of_le hms, if_neg (by omega), if_neg (by omega),
      if_neg hz]
    unfold sizeof_ewf_crc
    split_ifs with h1 h2 h3 h4 h5 h6 h7 h8 <;> simp_all [Bool.not_eq_true] <;>
      first | tauto | omega

/-- Concrete instantiation of claim C6's amended theorem: one closed section
and one open section. -/
theorem claim_C6_amended_witness :
    (libewf_write_io_handle_test_chunks_section_full 0 0 ⟨8, 0, 0⟩ 0 89 10 0 0 5
      false true false = some false)
    ∧ (libewf_write_io_handle_test_chunks_section_full 89 0 ⟨8, 0, 0⟩ 0 89 10 0
      0 5 false true false = some true
      ↔ chunks_section_full_amended 0 ⟨8, 0, 0⟩ 0 89 89 10 0 0 5 false true
        false) := by
  constructor
  · exact (claim_C6_amended_chunks_section_full 0 0 ⟨8, 0, 0⟩ 0 89 10 0 0 5
      false true false (by decide) (by decide) (by decide) (by decide)).1 rfl
  · exact (claim_C6_amended_chunks_section_full 89 0 ⟨8, 0, 0⟩ 0 89 10 0 0 5
      false true false (by decide) (by decide) (by decide) (by decide)).2
      (by decide)

/-- Reducing a value of 32-bit unsigned range modulo 2^32 is the identity. -/
theorem toNat_emod_u32 (E : ℤ) (h0 : 0 ≤ E) (h1 : E < 2 ^ 32) :
    (E % 2 ^ 32).toNat = E.toNat := by
  rw [Int.emod_eq_of_lt h0 h1]

/-- Adding a count only when it is positive is plain addition. -/
theorem ite_add_nat_pos (c : ℤ) (s : ℕ) : (if s > 0 then c + (s : ℤ) else c) = c + (s : ℤ) := by
  rcases Nat.eq_zero_or_pos s with h | h
  · subst h; simp
  · rw [if_pos h]

/-- Claim C3: for all inputs with a non-null output pointer, non-null media
values and maximum_section_amount_of_chunks > 0 (together with the
machine-range side conditions: the remaining budget is within the signed
64-bit range so its size64-to-int64 reinterpretation at source lines 253 and
276 is the identity, the per-chunk cost does not wrap in 32 bits, the overhead
subtraction does not underflow, and the chunks written so far do not exceed
the media total), libewf_write_io_handle_calculate_chunks_per_segment
returns 1 and computes its estimate as claim C3 describes: max_chunks =
remaining / (chunk_size + 16) for S01 else remaining / (chunk_size + 4);
required chunk sections = 1 when unrestrict is set, else max_chunks modulo
maximum_section_amount_of_chunks; subtract the format-specific section and
table-offset overhead; divide again by the same per-chunk cost; when
media_size > 0 clamp to media.amount_of_chunks minus chunks written so far;
add the chunks already in the segment; and saturate the result at 2^32 - 1,
which is the value of chunks_per_segment_spec. -/
theorem claim_C3_calculate_chunks_per_segment
    (remaining_segment_file_size : ℕ)
    (maximum_section_amount_of_chunks : ℕ)
    (segment_amount_of_chunks : ℕ)
    (amount_of_chunks : ℕ)
    (media_values : MediaValues)
    (format_is_encase1 : Bool)
    (ewf_format_is_s01 : Bool)
    (unrestrict_offset_amount : Bool)
    (hmax : 0 < maximum_section_amount_of_chunks)
    (hrem : remaining_segment_file_size ≤ INT64_MAX)
    (hcs : media_values.chunk_size + 16 < 2 ^ 32)
    (hnn : 0 ≤ cps_after_overhead remaining_segment_file_size
      maximum_section_amount_of_chunks media_values format_is_encase1
      ewf_format_is_s01 unrestrict_offset_amount)
    (hmedia : media_values.media_size > 0 →
      amount_of_chunks ≤ media_values.amount_of_chunks) :
    libewf_write_io_handle_calculate_chunks_per_segment
      remaining_segment_file_size maximum_section_amount_of_chunks
      segment_amount_of_chunks amount_of_chunks media_values format_is_encase1
      ewf_format_is_s01 unrestrict_offset_amount
    = some (chunks_per_segment_spec remaining_segment_file_size
        maximum_section_amount_of_chunks segment_amount_of_chunks
        amount_of_chunks media_values format_is_encase1 ewf_format_is_s01
        unrestrict_offset_amount).toNat := by
  have hm : (media_values.chunk_size + 16) % 2 ^ 32 = media_values.chunk_size + 16 :=
    Nat.mod_eq_of_lt hcs
  unfold libewf_write_io_handle_calculate_chunks_per_segment
    chunks_per_segment_spec
  unfold cps_after_overhead at hnn
  rw [if_neg (by omega)]
  rw [int64_of_uint64_eq_of_le hrem] at hnn ⊢
  simp only [sizeof_ewf_crc, sizeof_ewf_section, sizeof_ewf_table_offset, hm] at hnn ⊢
  cases ewf_format_is_s01 <;> cases format_is_encase1 <;>
    cases unrestrict_offset_amount <;>
  · simp only [Bool.false_eq_true, if_true, if_false, ite_true, ite_false,
      Bool.true_eq_false] at hnn ⊢
    push_cast at hnn ⊢
    rw [ite_lt_eq_min, ite_gt_eq_min, ite_add_nat_pos]
    try rw [sub_sub]
    try rw [show (2 : ℤ) * 4 = 8 by norm_num]
    congr 1
    apply toNat_emod_u32
    · refine le_min (add_nonneg ?_ (by positivity)) (by norm_num [UINT32_MAX])
      split_ifs with hm0
      · refine le_min (Int.tdiv_nonneg (by linarith [hnn]) (by positivity)) ?_
        have := hmedia hm0
        omega
      · exact Int.tdiv_nonneg (by linarith [hnn]) (by positivity)
    · exact lt_of_le_of_lt (min_le_right _ _) (by norm_num [UINT32_MAX])

/-- Concrete instantiation of claim C3's theorem. -/
theorem claim_C3_witness :
    libewf_write_io_handle_calculate_chunks_per_segment 1000000 100 2 3
      ⟨64, 10000, 200⟩ false false false
    = some (chunks_per_segment_spec 1000000 100 2 3
        ⟨64, 10000, 200⟩ false false false).toNat :=
  claim_C3_calculate_chunks_per_segment 1000000 100 2 3 ⟨64, 10000, 200⟩
    false false false (by decide) (by decide) (by decide) (by decide) (by decide)

/-- Field-level description of `process_chunk_pack`: the on-wire decision, the
output buffer, the CRC and the flags, for each of the three source branches. -/
theorem process_chunk_pack_fields
    (crc_calculate : List ℕ → ℕ → ℕ) (media_values : MediaValues)
    (ewf_format_is_s01 : Bool) (chunk_data compressed_content : List ℕ)
    (compressed_size : ℕ) (cache : ChunkCacheView) :
    ((process_chunk_pack crc_calculate media_values ewf_format_is_s01
        chunk_data compressed_content compressed_size cache).is_compressed = true
      ↔ (ewf_format_is_s01 = true
          ∨ (0 < compressed_size ∧ compressed_size < media_values.chunk_size)))
    ∧ (process_chunk_pack crc_calculate media_values ewf_format_is_s01
        chunk_data compressed_content compressed_size cache).from_compressed
      = (process_chunk_pack crc_calculate media_values ewf_format_is_s01
        chunk_data compressed_content compressed_size cache).is_compressed
    ∧ (process_chunk_pack crc_calculate media_values ewf_format_is_s01
        chunk_data compressed_content compressed_size cache).compressed_size
      = compressed_size
    ∧ ((process_chunk_pack crc_calculate media_values ewf_format_is_s01
        chunk_data compressed_content compressed_size cache).is_compressed = true →
      (process_chunk_pack crc_calculate media_values ewf_format_is_s01
        chunk_data compressed_content compressed_size cache).out_bytes
        = compressed_content
      ∧ (process_chunk_pack crc_calculate media_values ewf_format_is_s01
        chunk_data compressed_content compressed_size cache).data_write_size
        = compressed_size
      ∧ (process_chunk_pack crc_calculate media_values ewf_format_is_s01
        chunk_data compressed_content compressed_size cache).chunk_crc
        = le32_value ((compressed_content.drop (compressed_size - 4)).take 4)
      ∧ (process_chunk_pack crc_calculate media_values ewf_format_is_s01
        chunk_data compressed_content compressed_size cache).write_crc = false)
    ∧ ((process_chunk_pack crc_calculate media_values ewf_format_is_s01
        chunk_data compressed_content compressed_size cache).is_compressed = false →
      (process_chunk_pack crc_calculate media_values ewf_format_is_s01
        chunk_data compressed_content compressed_size cache).chunk_crc
        = crc_calculate chunk_data 1
      ∧ (cache.chunk_is_cache_data = true →
        (process_chunk_pack crc_calculate media_values ewf_format_is_s01
          chunk_data compressed_content compressed_size cache).write_crc = false
        ∧ (process_chunk_pack crc_calculate media_values ewf_format_is_s01
          chunk_data compressed_content compressed_size cache).data_write_size
          = chunk_data.length + 4
        ∧ (process_chunk_pack crc_calculate media_values ewf_format_is_s01
          chunk_data compressed_content compressed_size cache).out_bytes
          = chunk_data ++ le32_bytes (crc_calculate chunk_data 1))
      ∧ (cache.chunk_is_cache_data = false →
        (process_chunk_pack crc_calculate media_values ewf_format_is_s01
          chunk_data compressed_content compressed_size cache).write_crc = true
        ∧ (process_chunk_pack crc_calculate media_values ewf_format_is_s01
          chunk_data compressed_content compressed_size cache).data_write_size
          = chunk_data.length
        ∧ (process_chunk_pack crc_calculate media_values ewf_format_is_s01
          chunk_data compressed_content compressed_size cache).out_bytes
          = chunk_data)) := by
  unfold process_chunk_pack
  unfold sizeof_ewf_crc
  split_ifs with h hc <;> simp_all

/-- Case analysis of a successful `libewf_write_io_handle_process_chunk` call:
either compression ran (EWF-S01 or an effective level other than none) and the
result is packed from the compressed stream with its length, or compression
did not run and the result is packed from the entry content and entry size of
the compressed buffer. -/
theorem process_chunk_cases
    (compress : List ℕ → ℤ → Option (List ℕ))
    (crc_calculate : List ℕ → ℕ → ℕ)
    (media_values : MediaValues) (compression_level : ℤ)
    (compress_empty_block : Bool) (ewf_format_is_s01 : Bool)
    (chunk_data compressed_buffer_content : List ℕ)
    (compressed_buffer_size : ℕ) (cache : ChunkCacheView)
    (r : ProcessedChunk)
    (hr : libewf_write_io_handle_process_chunk compress crc_calculate
      media_values compression_level compress_empty_block ewf_format_is_s01
      chunk_data compressed_buffer_content compressed_buffer_size cache
      = some r) :
    chunk_data.length ≤ media_values.chunk_size
    ∧ ∃ lev, process_chunk_effective_level compression_level
        compress_empty_block chunk_data = some lev
      ∧ (((ewf_format_is_s01 = true ∨ lev ≠ EWF_COMPRESSION_NONE)
          ∧ ∃ out, compress chunk_data lev = some out
            ∧ r = process_chunk_pack crc_calculate media_values
                ewf_format_is_s01 chunk_data out out.length cache)
        ∨ (¬ (ewf_format_is_s01 = true ∨ lev ≠ EWF_COMPRESSION_NONE)
          ∧ r = process_chunk_pack crc_calculate media_values ewf_format_is_s01
              chunk_data compressed_buffer_content compressed_buffer_size
              cache)) := by
  unfold libewf_write_io_handle_process_chunk at hr
  split at hr
  · exact absurd hr (by simp)
  split at hr
  · exact absurd hr (by simp)
  split at hr
  next h3 => exact absurd hr (by simp)
  next h3 =>
    split at hr
    · exact absurd hr (by simp)
    next lev hlev =>
      refine ⟨by omega, lev, hlev, ?_⟩
      split at hr
      next hD =>
        left
        refine ⟨hD, ?_⟩
        split at hr
        · exact absurd hr (by simp)
        split at hr
        · exact absurd hr (by simp)
        split at hr
        · exact absurd hr (by simp)
        next out hout =>
          refine ⟨out, hout, ?_⟩
          split at hr
          · exact (Option.some.inj hr).symm
          split at hr
          · exact (Option.some.inj hr).symm
          · exact absurd hr (by simp)
      next hD =>
        right
        exact ⟨hD, (Option.some.inj hr).symm⟩

/-- Claim C1: for every successful call of the chunk processor
(libewf_write_io_handle_process_chunk) with valid, non-aliasing buffers (a
compressed buffer of at least chunk_size bytes, a deflate stream of at least
four bytes on success) and chunk_data_size <= chunk_size, the chunk is stored
compressed (is_compressed set to 1 and the output taken from the compressed
buffer) if and only if ewf_format = S01 or the compressed size is strictly
smaller than chunk_size; in particular a chunk whose compressed size equals
chunk_size is stored raw unless the format is S01. -/
theorem claim_C1_process_chunk_compressed_iff
    (compress : List ℕ → ℤ → Option (List ℕ))
    (crc_calculate : List ℕ → ℕ → ℕ)
    (media_values : MediaValues) (compression_level : ℤ)
    (compress_empty_block : Bool) (ewf_format_is_s01 : Bool)
    (chunk_data compressed_buffer_content : List ℕ)
    (compressed_buffer_size : ℕ) (cache : ChunkCacheView)
    (r : ProcessedChunk)
    (hwf : ∀ d l out, compress d l = some out → 4 ≤ out.length)
    (hcap : media_values.chunk_size ≤ compressed_buffer_size)
    (hr : libewf_write_io_handle_process_chunk compress crc_calculate
      media_values compression_level compress_empty_block ewf_format_is_s01
      chunk_data compressed_buffer_content compressed_buffer_size cache
      = some r) :
    (r.is_compressed = true
      ↔ (ewf_format_is_s01 = true
          ∨ r.compressed_size < media_values.chunk_size))
    ∧ r.from_compressed = r.is_compressed := by
  obtain ⟨hlen, lev, hlev, hcases⟩ := process_chunk_cases compress crc_calculate
    media_values compression_level compress_empty_block ewf_format_is_s01
    chunk_data compressed_buffer_content compressed_buffer_size cache r hr
  rcases hcases with ⟨hD, out, hout, hre⟩ | ⟨hD, hre⟩
  · have h4 := hwf _ _ _ hout
    obtain ⟨hp1, hp2, hp3, _⟩ := process_chunk_pack_fields crc_calculate
      media_values ewf_format_is_s01 chunk_data out out.length cache
    subst hre
    refine ⟨?_, hp2⟩
    rw [hp1, hp3]
    constructor
    · rintro (hs | ⟨_, hlt⟩)
      · exact Or.inl hs
      · exact Or.inr hlt
    · rintro (hs | hlt)
      · exact Or.inl hs
      · exact Or.inr ⟨by omega, hlt⟩
  · obtain ⟨hp1, hp2, hp3, _⟩ := process_chunk_pack_fields crc_calculate
      media_values ewf_format_is_s01 chunk_data compressed_buffer_content
      compressed_buffer_size cache
    subst hre
    refine ⟨?_, hp2⟩
    rw [hp1, hp3]
    have hs01 : ¬ ewf_format_is_s01 = true := fun h => hD (Or.inl h)
    constructor
    · rintro (hs | ⟨_, hlt⟩)
      · exact absurd hs hs01
      · omega
    · rintro (hs | hlt)
      · exact absurd hs hs01
      · omega

/-- Concrete instantiation of claim C1's theorem: a two-byte chunk whose
four-byte deflate stream is not smaller than the chunk size is stored raw. -/
theorem claim_C1_witness :
    ((⟨2, [7, 7], false, false, 5, true, 4⟩ : ProcessedChunk).is_compressed = true
      ↔ (false = true
          ∨ (⟨2, [7, 7], false, false, 5, true, 4⟩ : ProcessedChunk).compressed_size
            < (⟨4, 0, 0⟩ : MediaValues).chunk_size))
    ∧ (⟨2, [7, 7], false, false, 5, true, 4⟩ : ProcessedChunk).from_compressed
      = (⟨2, [7, 7], false, false, 5, true, 4⟩ : ProcessedChunk).is_compressed :=
  claim_C1_process_chunk_compressed_iff (fun _ _ => some [1, 1, 1, 1])
    (fun _ _ => 5) ⟨4, 0, 0⟩ (-1) false false [7, 7] [] 4
    ⟨false, false, false, false⟩ ⟨2, [7, 7], false, false, 5, true, 4⟩
    (by intro d l out h; cases h; decide) (by decide) (by decide)

/-- Claim C2: for every successful call of
libewf_write_io_handle_process_chunk (with the same buffer-validity side
conditions as claim C1): if the chunk is stored compressed, the returned CRC
equals the last 4 bytes of the compressed stream; if stored raw, the returned
CRC is the 32-bit CRC with seed 1 over the chunk bytes, and exactly when the
chunk data buffer is the engine's internal chunk-cache data buffer the CRC is
appended in-place little-endian with write_crc = 0 and the returned byte
length is chunk_data_size + 4, otherwise write_crc = 1 and the returned byte
length is chunk_data_size. -/
theorem claim_C2_process_chunk_crc
    (compress : List ℕ → ℤ → Option (List ℕ))
    (crc_calculate : List ℕ → ℕ → ℕ)
    (media_values : MediaValues) (compression_level : ℤ)
    (compress_empty_block : Bool) (ewf_format_is_s01 : Bool)
    (chunk_data compressed_buffer_content : List ℕ)
    (compressed_buffer_size : ℕ) (cache : ChunkCacheView)
    (r : ProcessedChunk)
    (hwf : ∀ d l out, compress d l = some out → 4 ≤ out.length)
    (hcap : media_values.chunk_size ≤ compressed_buffer_size)
    (hr : libewf_write_io_handle_process_chunk compress crc_calculate
      media_values compression_level compress_empty_block ewf_format_is_s01
      chunk_data compressed_buffer_content compressed_buffer_size cache
      = some r) :
    (r.is_compressed = true → r.chunk_crc = last_four_le r.out_bytes)
    ∧ (r.is_compressed = false →
      r.chunk_crc = crc_calculate chunk_data 1
      ∧ (cache.chunk_is_cache_data = true →
        r.write_crc = false
        ∧ r.data_write_size = chunk_data.length + 4
        ∧ r.out_bytes = chunk_data ++ le32_bytes (crc_calculate chunk_data 1))
      ∧ (cache.chunk_is_cache_data = false →
        r.write_crc = true ∧ r.data_write_size = chunk_data.length
        ∧ r.out_bytes = chunk_data)) := by
  obtain ⟨hlen, lev, hlev, hcases⟩ := process_chunk_cases compress crc_calculate
    media_values compression_level compress_empty_block ewf_format_is_s01
    chunk_data compressed_buffer_content compressed_buffer_size cache r hr
  rcases hcases with ⟨hD, out, hout, hre⟩ | ⟨hD, hre⟩
  · have h4 := hwf _ _ _ hout
    obtain ⟨hp1, hp2, hp3, hp4, hp5⟩ := process_chunk_pack_fields crc_calculate
      media_values ewf_format_is_s01 chunk_data out out.length cache
    subst hre
    refine ⟨?_, hp5⟩
    intro hc
    obtain ⟨ho, _, hcrc, _⟩ := hp4 hc
    rw [hcrc, ho]
    unfold last_four_le
    rfl
  · obtain ⟨hp1, hp2, hp3, hp4, hp5⟩ := process_chunk_pack_fields crc_calculate
      media_values ewf_format_is_s01 chunk_data compressed_buffer_content
      compressed_buffer_size cache
    subst hre
    refine ⟨?_, hp5⟩
    intro hc
    rw [hp1] at hc
    have hs01 : ¬ ewf_format_is_s01 = true := fun h => hD (Or.inl h)
    rcases hc with hs | ⟨_, hlt⟩
    · exact absurd hs hs01
    · omega

/-- Concrete instantiation of claim C2's theorem: a compressed EWF-S01 chunk
whose CRC is the trailing four stream bytes, and a raw chunk held in the chunk
cache's data buffer with the CRC appended in place. -/
theorem claim_C2_witness :
    ((⟨4, [1, 1, 1, 1], true, true, 16843009, false, 4⟩ : ProcessedChunk).is_compressed = true →
      (⟨4, [1, 1, 1, 1], true, true, 16843009, false, 4⟩ : ProcessedChunk).chunk_crc
        = last_four_le (⟨4, [1, 1, 1, 1], true, true, 16843009, false, 4⟩ : ProcessedChunk).out_bytes)
    ∧ ((⟨6, [7, 7, 5, 0, 0, 0], false, false, 5, false, 9⟩ : ProcessedChunk).is_compressed = false →
      (⟨6, [7, 7, 5, 0, 0, 0], false, false, 5, false, 9⟩ : ProcessedChunk).chunk_crc = 5
      ∧ (true = true →
        (⟨6, [7, 7, 5, 0, 0, 0], false, false, 5, false, 9⟩ : ProcessedChunk).write_crc = false
        ∧ (⟨6, [7, 7, 5, 0, 0, 0], false, false, 5, false, 9⟩ : ProcessedChunk).data_write_size
          = [7, 7].length + 4
        ∧ (⟨6, [7, 7, 5, 0, 0, 0], false, false, 5, false, 9⟩ : ProcessedChunk).out_bytes
          = [7, 7] ++ le32_bytes 5)
      ∧ (true = false →
        (⟨6, [7, 7, 5, 0, 0, 0], false, false, 5, false, 9⟩ : ProcessedChunk).write_crc = true
        ∧ (⟨6, [7, 7, 5, 0, 0, 0], false, false, 5, false, 9⟩ : ProcessedChunk).data_write_size
          = [7, 7].length
        ∧ (⟨6, [7, 7, 5, 0, 0, 0], false, false, 5, false, 9⟩ : ProcessedChunk).out_bytes
          = [7, 7])) := by
  constructor
  · exact (claim_C2_process_chunk_crc (fun _ _ => some [1, 1, 1, 1])
      (fun _ _ => 5) ⟨4, 0, 0⟩ 0 false true [7, 7] [] 4
      ⟨false, false, false, false⟩ ⟨4, [1, 1, 1, 1], true, true, 16843009, false, 4⟩
      (by intro d l out h; cases h; decide) (by decide) (by decide)).1
  · exact (claim_C2_process_chunk_crc (fun _ _ => some [1, 1, 1, 1, 1, 1, 1, 1, 1])
      (fun _ _ => 5) ⟨8, 0, 0⟩ (-1) false false [7, 7] [] 9
      ⟨true, false, false, false⟩ ⟨6, [7, 7, 5, 0, 0, 0], false, false, 5, false, 9⟩
      (by intro d l out h; cases h; decide) (by decide) (by decide)).2

/-- Claim C7: when compression_level is NONE and compress_empty_block is set,
libewf_write_io_handle_process_chunk scans the chunk for all bytes equal to
byte 0 (the byte at index 0) and, if the scan succeeds, promotes the
compression level to DEFAULT, so that for every such empty block whose deflate
stream is smaller than chunk_size the chunk is stored compressed
(is_compressed = 1) even at compression level none. -/
theorem claim_C7_empty_block_promotion
    (compress : List ℕ → ℤ → Option (List ℕ))
    (crc_calculate : List ℕ → ℕ → ℕ)
    (media_values : MediaValues)
    (compress_empty_block : Bool) (ewf_format_is_s01 : Bool)
    (chunk_data compressed_buffer_content : List ℕ)
    (compressed_buffer_size : ℕ) (cache : ChunkCacheView)
    (r : ProcessedChunk)
    (hceb : compress_empty_block = true)
    (hempty : libewf_write_io_handle_test_empty_block chunk_data = some true)
    (hs01 : ewf_format_is_s01 = false)
    (hout : ∀ out, compress chunk_data EWF_COMPRESSION_DEFAULT = some out →
      4 ≤ out.length ∧ out.length < media_values.chunk_size)
    (hr : libewf_write_io_handle_process_chunk compress crc_calculate
      media_values EWF_COMPRESSION_NONE compress_empty_block ewf_format_is_s01
      chunk_data compressed_buffer_content compressed_buffer_size cache
      = some r) :
    process_chunk_effective_level EWF_COMPRESSION_NONE compress_empty_block
      chunk_data = some EWF_COMPRESSION_DEFAULT
    ∧ r.is_compressed = true := by
  have hel : process_chunk_effective_level EWF_COMPRESSION_NONE
      compress_empty_block chunk_data = some EWF_COMPRESSION_DEFAULT := by
    unfold process_chunk_effective_level
    rw [if_pos ⟨rfl, by rw [hceb]⟩, hempty]
  refine ⟨hel, ?_⟩
  obtain ⟨hlen, lev, hlev, hcases⟩ := process_chunk_cases compress crc_calculate
    media_values EWF_COMPRESSION_NONE compress_empty_block ewf_format_is_s01
    chunk_data compressed_buffer_content compressed_buffer_size cache r hr
  rw [hel] at hlev
  injection hlev with hlev
  subst hlev
  rcases hcases with ⟨hD, out, hout2, hre⟩ | ⟨hD, hre⟩
  · obtain ⟨h4, hlt⟩ := hout _ hout2
    obtain ⟨hp1, _, _, _⟩ := process_chunk_pack_fields crc_calculate
      media_values ewf_format_is_s01 chunk_data out out.length cache
    subst hre
    rw [hp1]
    exact Or.inr ⟨by omega, hlt⟩
  · exfalso
    apply hD
    right
    unfold EWF_COMPRESSION_DEFAULT EWF_COMPRESSION_NONE
    decide

/-- Concrete instantiation of claim C7's theorem: an all-zero two-byte block
written at level none with compress_empty_block set comes out compressed. -/
theorem claim_C7_witness :
    process_chunk_effective_level EWF_COMPRESSION_NONE true [0, 0]
      = some EWF_COMPRESSION_DEFAULT
    ∧ (⟨4, [2, 2, 2, 2], true, true, 33686018, false, 4⟩ : ProcessedChunk).is_compressed
      = true :=
  claim_C7_empty_block_promotion (fun _ _ => some [2, 2, 2, 2]) (fun _ _ => 5)
    ⟨8, 0, 0⟩ true false [0, 0] [] 8 ⟨false, false, false, false⟩
    ⟨4, [2, 2, 2, 2], true, true, 33686018, false, 4⟩
    rfl (by decide) rfl (by intro out h; cases h; decide) (by decide)
